import Mathlib

/-!
Verification of the messaging core of the divortio-opfsChannel repository
(`src/public/src/msgChannels`): the typed message hierarchy, the broadcast
channel dispatch/filter loop, and the async request/response correlation
layer.  Every definition below is a shallow embedding of the corresponding
JavaScript in the repository; file and symbol names are cited in the doc
comments.
-/

set_option autoImplicit false

namespace OpfsChannel

/-! ## JavaScript value model

Payloads and metadata of messages are arbitrary structured-clonable JS
values.  `JVal` models the fragment the messaging core manipulates;
`JFields` is the ordered field list of an object (JS object keys are kept
in insertion order). -/

mutual

inductive JVal where
  | undefined
  | null
  | str (s : String)
  | num (n : Int)
  | bool (b : Bool)
  | obj (fields : JFields)
deriving Repr, DecidableEq

inductive JFields where
  | nil
  | cons (k : String) (v : JVal) (rest : JFields)
deriving Repr, DecidableEq

end

/-- Does the field list bind the key `key`? (JS `key in obj`). -/
def JFields.hasKey : JFields → String → Bool
  | .nil, _ => false
  | .cons k _ r, key => k == key || r.hasKey key

/-- JS object key assignment / object-literal duplicate-key semantics: if the
key is already bound its value is updated in place (keeping the original key
position), otherwise the key is appended at the end. -/
def JFields.insert : JFields → String → JVal → JFields
  | .nil, key, v => .cons key v .nil
  | .cons k w r, key, v =>
    if k = key then .cons k v r else .cons k w (r.insert key v)

/-- First (and, for lists built with `insert`, only) binding of `key`. -/
def JFields.get? : JFields → String → Option JVal
  | .nil, _ => none
  | .cons k v r, key => if k = key then some v else r.get? key

/-- Spreading the fields of a source object into a target field list, in
order, with JS assignment semantics (`JFields.insert`). -/
def spreadFields : JFields → JFields → JFields
  | target, .nil => target
  | target, .cons k v r => spreadFields (target.insert k v) r

/-- Helper for spreading a string: JS object spread of a string contributes
its indexed one-character properties `"0"`, `"1"`, ... . -/
def spreadStr (target : JFields) (i : Nat) : List Char → JFields
  | [] => target
  | c :: cs => spreadStr (target.insert (toString i) (.str (String.mk [c]))) (i + 1) cs

/-- JS object spread `...v` into an object literal whose fields so far are
`target`: objects contribute their fields, strings their indexed characters,
and `null`/`undefined`/numbers/booleans contribute nothing. -/
def JVal.spreadInto (target : JFields) : JVal → JFields
  | .obj fs => spreadFields target fs
  | .str s => spreadStr target 0 s.toList
  | .num _ => target
  | .bool _ => target
  | .null => target
  | .undefined => target

/-- JS truthiness. -/
def JVal.truthy : JVal → Bool
  | .undefined => false
  | .null => false
  | .str s => s != ""
  | .num n => n != 0
  | .bool b => b
  | .obj _ => true

/-- Property read `v?.k` (optional chaining, as used by the async channel on
`message.metadata`): `null`/`undefined` and primitive receivers yield
`undefined` for the protocol keys read here; objects look the key up. -/
def JVal.getProp : JVal → String → JVal
  | .obj fs, k => (fs.get? k).getD .undefined
  | _, _ => .undefined

/-- JS string conversion as performed by template literals, for the values
that actually occur in the embedded code. -/
def JVal.stringify : JVal → String
  | .undefined => "undefined"
  | .null => "null"
  | .str s => s
  | .num n => toString n
  | .bool b => if b then "true" else "false"
  | .obj _ => "[object Object]"

/-! ## JS errors -/

/-- A JS `Error` value, with the extra own-properties the messaging core
attaches (`requestMsgID` on `RequestTimeoutError`, `remoteStack`/`remoteData`
on the remote-error object built by `_handleResponse`). -/
structure JsError where
  name : String
  message : String
  stack : Option String
  requestMsgID : Option String
  remoteStack : JVal
  remoteData : JVal
deriving Repr, DecidableEq

/-- A plain `new Error(message)` (or a named error class) with no extra
properties. -/
def mkError (name message : String) : JsError :=
  ⟨name, message, none, none, .undefined, .undefined⟩

/-- JS strict-mode property assignment `target.k = v`: updates the key on an
object; on `null`/`undefined` (and other primitives, which never occur here)
it throws a `TypeError`.  ES modules are strict-mode code. -/
def JVal.setProp : JVal → String → JVal → Except JsError JVal
  | .obj fs, k, v => .ok (.obj (fs.insert k v))
  | _, _, _ => .error (mkError "TypeError" "Cannot set properties of null")

/-! ## The ID generator

`src/public/src/vendor/pushID.js` is imported by the message model but is
not part of this snapshot; it is modelled abstractly as a counter `Gen`
whose every `newObj` call consumes exactly one unit and yields an injective
time-ordered id together with the matching timestamp.  Only the *number of
units consumed* by each constructor is relied on by the claims, and that is
determined by the constructor code in `src/`, not by the vendor file. -/

abbrev Gen := Nat

def pushIDEpoch : Int := 1700000000000

/-- `pushID.newObj({})`: one fresh id object per call, consuming one
generator unit. -/
def pushIDNewObj (g : Gen) : (String × Int) × Gen :=
  (("-PushID" ++ toString g, pushIDEpoch + g), g + 1)

/-- `Date.now()`: reads the clock (keyed to the generator state for
determinism) without consuming a generator unit. -/
def dateNow (g : Gen) : Int := pushIDEpoch + g

/-- ISO-8601 rendering of a timestamp (`new Date(t).toISOString()`),
abstracted as an injective printable form; no claim depends on the exact
text. -/
def isoString (t : Int) : String := "ISO:" ++ toString t

/-- JS `s.padStart(5, ' ')`. -/
def padStart5 (s : String) : String :=
  String.mk (List.replicate (5 - s.length) ' ') ++ s

/-! ## Agent identity

`src/public/src/msgChannels/messages/messageAgent.js`.  The environment
probing (`_determineScope`, worker names) is irrelevant to the claims; an
agent is its resulting scope and id. -/

structure MessageAgent where
  agentScope : String
  agentID : String
deriving Repr, DecidableEq

/-- `getAgentID` from `messages/base.js`, at the `MessageAgent`-object case
used by every call site: a missing/empty `agentID` throws. -/
def getAgentID (agent : MessageAgent) : Except JsError String :=
  if agent.agentID = "" then
    .error (mkError "Error" "BaseMessage requires a valid AgentID or MessageAgent instance containing agentID.")
  else
    .ok agent.agentID

/-! ## Message model: BaseMessage

`src/public/src/msgChannels/messages/base.js`. -/

/-- The wire envelope every message carries. -/
structure BaseMessage where
  msgID : String
  timestamp : Int
  type : String
  payload : JVal
  metadata : JVal
  agentID : String
  toAgent : Option String
deriving Repr, DecidableEq

/-- The `BaseMessage` constructor.  The JS signature is
`constructor(agent, type, payload, metadata = \x7b\x7d, toAgent = null)`; the
default only applies when the argument is `undefined`, so call sites that
omit the argument pass `.undefined` here and call sites that pass `null`
explicitly pass `.null` (which the default does NOT replace).  Consumes one
generator unit via `pushID.newObj`. -/
def BaseMessage.mkM (agent : MessageAgent) (type : String) (payload : JVal)
    (metadata : JVal) (toAgent : Option String) (g : Gen) :
    Except JsError BaseMessage × Gen :=
  if type = "" then
    (.error (mkError "Error" "BaseMessage requires a non-empty string type."), g)
  else
    let ((id, ts), g1) := pushIDNewObj g
    match getAgentID agent with
    | .error e => (.error e, g1)
    | .ok aid =>
      let md := if metadata = JVal.undefined then JVal.obj .nil else metadata
      (.ok { msgID := id, timestamp := ts, type := type, payload := payload,
             metadata := md, agentID := aid, toAgent := toAgent }, g1)

/-! ## Message model: LogMessage and ErrorMessage

`messages/base.js` (LogMessage part of the bundled log source) and
`messages/error.js`. -/

structure LogMessage extends BaseMessage where
  level : String
  logMessage : String
deriving Repr, DecidableEq

/-- `_getLogPrefix` (shared shape of `LogMessage._getLogPrefix` and
`ErrorMessage._getLogPrefix`): constructs a dummy `BaseMessage` internally
just to obtain a fresh `msgID`/`timestamp` pair for the text, thereby
consuming one generator unit, then renders
`"[msgID] [iso] [AGENT_ID] [LEVEL] "`. -/
def getLogPfxM (agent : MessageAgent) (msgType : String) (level : String)
    (g : Gen) : Except JsError String × Gen :=
  match BaseMessage.mkM agent msgType JVal.null JVal.undefined none g with
  | (.error e, g1) => (.error e, g1)
  | (.ok tmp, g1) =>
    (.ok ("[" ++ tmp.msgID ++ "] [" ++ isoString tmp.timestamp ++ "] [" ++
      agent.agentID.toUpper ++ "] [" ++ padStart5 level.toUpper ++ "] "), g1)

/-- The `LogMessage` constructor: validates the level, renders the log
prefix (one generator unit for the internal dummy message), then calls
`super(agent, 'system_log', payload, null, toAgent)` — note the explicit
`null` metadata — consuming a second generator unit. -/
def LogMessage.mkM (agent : MessageAgent) (level : String) (message : String)
    (data : JVal) (toAgent : Option String) (g : Gen) :
    Except JsError LogMessage × Gen :=
  if level = "info" ∨ level = "warn" ∨ level = "debug" then
    match getLogPfxM agent "system_log" level g with
    | (.error e, g1) => (.error e, g1)
    | (.ok pfx, g1) =>
      let payload := JVal.obj (.cons "level" (.str level)
        (.cons "message" (.str (pfx ++ message))
        (.cons "data" data
        (.cons "timestamp" (.num (dateNow g1)) .nil))))
      match BaseMessage.mkM agent "system_log" payload JVal.null toAgent g1 with
      | (.error e, g2) => (.error e, g2)
      | (.ok base, g2) =>
        (.ok { toBaseMessage := base, level := level, logMessage := message }, g2)
  else
    (.error (mkError "Error" ("Invalid log level: " ++ level ++ ". Must be info, warn, or debug.")), g)

/-- The argument of the `ErrorMessage` constructor: a JS `Error` instance or
any other value (normalised via `String(error)`). -/
inductive ErrArg where
  | errVal (e : JsError)
  | other (v : JVal)
deriving Repr, DecidableEq

structure ErrorMessage extends BaseMessage where
  errorName : String
  errorMessage : String
  errorStack : Option String
deriving Repr, DecidableEq

def optStrToJVal : Option String → JVal
  | some s => .str s
  | none => .null

/-- The `ErrorMessage` constructor (`messages/error.js`): normalises the
error, renders the prefix (one generator unit for the internal dummy
message), then calls `super(agent, 'system_error', payload, null, toAgent)`
— explicit `null` metadata — consuming a second unit. -/
def ErrorMessage.mkM (agent : MessageAgent) (error : ErrArg) (data : JVal)
    (toAgent : Option String) (g : Gen) : Except JsError ErrorMessage × Gen :=
  let name := match error with
    | .errVal e => if e.name = "" then "Error" else e.name
    | .other _ => "SystemError"
  let message := match error with
    | .errVal e => e.message
    | .other v => v.stringify
  let stack := match error with
    | .errVal e => e.stack
    | .other _ => none
  match getLogPfxM agent "system_error" "ERROR" g with
  | (.error e, g1) => (.error e, g1)
  | (.ok pfx, g1) =>
    let payload := JVal.obj (.cons "name" (.str name)
      (.cons "message" (.str (pfx ++ message))
      (.cons "stack" (optStrToJVal stack)
      (.cons "data" data .nil))))
    match BaseMessage.mkM agent "system_error" payload JVal.null toAgent g1 with
    | (.error e, g2) => (.error e, g2)
    | (.ok base, g2) =>
      (.ok { toBaseMessage := base, errorName := name, errorMessage := message,
             errorStack := stack }, g2)

/-! ## Message model: status, event, handshake, request, response -/

structure StatusMessage extends BaseMessage where
  statusKey : String
  statusValue : JVal
deriving Repr, DecidableEq

/-- The `StatusMessage` constructor (bundled status source): validates the
key and calls `super(agent, 'system_status', payload, null, toAgent)` with
explicit `null` metadata. -/
def StatusMessage.mkM (agent : MessageAgent) (key : String) (value : JVal)
    (toAgent : Option String) (g : Gen) : Except JsError StatusMessage × Gen :=
  if key = "" then
    (.error (mkError "Error" "StatusMessage requires a non-empty string key."), g)
  else
    let payload := JVal.obj (.cons "key" (.str key) (.cons "value" value .nil))
    match BaseMessage.mkM agent "system_status" payload JVal.null toAgent g with
    | (.error e, g1) => (.error e, g1)
    | (.ok base, g1) =>
      (.ok { toBaseMessage := base, statusKey := key, statusValue := value }, g1)

structure EventMessage extends BaseMessage where
  eventName : String
deriving Repr, DecidableEq

/-- The `EventMessage` constructor (`messages/event.js`): its own `metadata`
parameter defaults to `null` (not to an object) and is forwarded to the base
constructor. -/
def EventMessage.mkM (agent : MessageAgent) (name : String) (data : JVal)
    (metadata : JVal) (toAgent : Option String) (g : Gen) :
    Except JsError EventMessage × Gen :=
  if name = "" then
    (.error (mkError "Error" "EventMessage requires a non-empty string name."), g)
  else
    let payload := JVal.obj (.cons "name" (.str name) (.cons "data" data .nil))
    match BaseMessage.mkM agent "app_event" payload metadata toAgent g with
    | (.error e, g1) => (.error e, g1)
    | (.ok base, g1) => (.ok { toBaseMessage := base, eventName := name }, g1)

structure HandshakeMessage extends BaseMessage where
  agentScope : String
deriving Repr, DecidableEq

/-- The `HandshakeMessage` base constructor (`messages/handshake.js`): fixed
discovery payload; the `metadata` parameter defaults to `null` and every
subclass passes `null` explicitly. -/
def HandshakeMessage.mkM (agent : MessageAgent) (type : String)
    (metadata : JVal) (toAgent : Option String) (g : Gen) :
    Except JsError HandshakeMessage × Gen :=
  let payload := JVal.obj (.cons "agentID" (.str agent.agentID)
    (.cons "scope" (.str agent.agentScope) .nil))
  match BaseMessage.mkM agent type payload metadata toAgent g with
  | (.error e, g1) => (.error e, g1)
  | (.ok base, g1) =>
    (.ok { toBaseMessage := base, agentScope := agent.agentScope }, g1)

/-- `HelloMessage` (`messages/hello.js`): broadcast presence announcement. -/
def HelloMessage.mkM (agent : MessageAgent) (g : Gen) :
    Except JsError HandshakeMessage × Gen :=
  HandshakeMessage.mkM agent "channel_hello" JVal.null none g

/-- `GreetingMessage` (bundled greetings source): direct reply to a hello;
construction fails on a falsy `toAgent`. -/
def GreetingMessage.mkM (agent : MessageAgent) (toAgent : String) (g : Gen) :
    Except JsError HandshakeMessage × Gen :=
  if toAgent = "" then
    (.error (mkError "Error" "GreetingMessage requires a target AgentID (toAgent) to ensure direct delivery."), g)
  else
    HandshakeMessage.mkM agent "channel_greeting" JVal.null (some toAgent) g

/-- `GoodbyeMessage` (bundled goodbye source): broadcast departure notice. -/
def GoodbyeMessage.mkM (agent : MessageAgent) (g : Gen) :
    Except JsError HandshakeMessage × Gen :=
  HandshakeMessage.mkM agent "channel_goodbye" JVal.null none g

structure RequestMessage extends BaseMessage where
  requestMsgID : String
deriving Repr, DecidableEq

/-- The `RequestMessage` constructor (`messages/request.js`): stores the
logical operation name in `metadata.requestType` and mirrors `msgID` as
`requestMsgID`. -/
def RequestMessage.mkM (agent : MessageAgent) (originalType : String)
    (payload : JVal) (toAgent : Option String) (g : Gen) :
    Except JsError RequestMessage × Gen :=
  if originalType = "" then
    (.error (mkError "Error" "RequestMessage requires a non-empty string for originalType."), g)
  else
    let metadata := JVal.obj (.cons "requestType" (.str originalType) .nil)
    match BaseMessage.mkM agent "request" payload metadata toAgent g with
    | (.error e, g1) => (.error e, g1)
    | (.ok base, g1) =>
      (.ok { toBaseMessage := base, requestMsgID := base.msgID }, g1)

structure ResponseMessage extends BaseMessage where
  requestMsgID : String
deriving Repr, DecidableEq

/-- The `ResponseMessage` constructor (`messages/response.js`): metadata is
the object literal `\x7b requestMsgID, ...requestMetadata \x7d` — the spread of
the original request metadata comes second, so on a key collision the
original metadata overrides the fresh `requestMsgID` entry. -/
def ResponseMessage.mkM (agent : MessageAgent) (requestMsgID : String)
    (payload : JVal) (requestMetadata : JVal) (toAgent : Option String)
    (g : Gen) : Except JsError ResponseMessage × Gen :=
  if requestMsgID = "" then
    (.error (mkError "Error" "ResponseMessage requires a requestMsgID to link back to the request."), g)
  else
    let metadata := JVal.obj
      (JVal.spreadInto (JFields.insert .nil "requestMsgID" (.str requestMsgID)) requestMetadata)
    match BaseMessage.mkM agent "response" payload metadata toAgent g with
    | (.error e, g1) => (.error e, g1)
    | (.ok base, g1) =>
      (.ok { toBaseMessage := base, requestMsgID := requestMsgID }, g1)

/-! ## Broadcast channel: listener registry and dispatch loop

`src/public/src/msgChannels/channels/base.js`.  Callbacks are JS function
references; reference identity is modelled by a callback id `CbId`, and the
behaviour of each callback lives in a separate environment `ListenerEnv`
(`cb id ↦ what the function does`), so that `on`/`off` manipulate exactly
what the JS `Map<string, Array<callback>>` holds. -/

abbrev CbId := Nat

/-- The listener registry `Map<string, Array<MessageCallback>>`. -/
abbrev Registry := List (String × List CbId)

/-- JS `Map.get`. -/
def assocGet {α : Type} : List (String × α) → String → Option α
  | [], _ => none
  | (k1, v1) :: rest, k => if k1 = k then some v1 else assocGet rest k

/-- JS `Map.set`: updates the existing entry in place or appends a new one
(insertion order is preserved). -/
def assocSet {α : Type} : List (String × α) → String → α → List (String × α)
  | [], k, v => [(k, v)]
  | (k1, v1) :: rest, k, v =>
    if k1 = k then (k1, v) :: rest else (k1, v1) :: assocSet rest k v

/-- `BaseChannel._getTypeString` at a string argument: a non-empty string is
returned as is, an empty one throws.  (The source also accepts a message
class or instance carrying a static `msgType`; the claims only exercise the
string form.) -/
def getTypeString (type : String) : Except JsError String :=
  if type = "" then
    .error (mkError "Error" "Invalid type specified. Must be a non-empty string or an object with a valid static msgType property.")
  else
    .ok type

namespace BaseChannel

/-- `BaseChannel.on`: appends the callback to the (possibly new) list for the
resolved type string. -/
def on' (reg : Registry) (type : String) (cb : CbId) : Except JsError Registry :=
  match getTypeString type with
  | .error e => .error e
  | .ok ts =>
    let listeners := (assocGet reg ts).getD []
    .ok (assocSet reg ts (listeners ++ [cb]))

/-- `BaseChannel.off`: if the type has a listener array, replaces it by the
array filtered with `cb !== callback` (removing every occurrence of that
function reference); a type with no array is a no-op. -/
def off (reg : Registry) (type : String) (cb : CbId) : Except JsError Registry :=
  match getTypeString type with
  | .error e => .error e
  | .ok ts =>
    match assocGet reg ts with
    | none => .ok reg
    | some listeners => .ok (assocSet reg ts (listeners.filter (fun c => c != cb)))

end BaseChannel

/-- Observable actions of one `_messageRouter` run. -/
inductive DEvent where
  | warnedMalformed
  | invoked (cb : CbId)
  | sent (m : BaseMessage)
  | loggedError (cb : CbId) (e : JsError)
deriving Repr, DecidableEq

/-- Behaviour of a callback: given the dispatched message and the generator
state, it sends some messages and either returns normally (`none`) or throws
(`some e`). -/
abbrev ListenerEnv := CbId → BaseMessage → Gen → (List BaseMessage × Option JsError) × Gen

namespace BaseChannel

/-- The `for (const callback of listeners)` loop of `_messageRouter`: each
callback runs inside its own `try`, a throw is logged via `console.error`
and the loop continues with the next callback; nothing ever propagates out
of the loop. -/
def dispatchLoop (env : ListenerEnv) (m : BaseMessage) :
    List CbId → Gen → List DEvent × Gen
  | [], g => ([], g)
  | cb :: rest, g =>
    let ((sends, err), g1) := env cb m g
    let tail := dispatchLoop env m rest g1
    (DEvent.invoked cb ::
      (sends.map DEvent.sent ++
        (match err with | some e => [DEvent.loggedError cb e] | none => []) ++
        tail.1),
     tail.2)

/-- JS truthiness of the `toAgent` field (`message.toAgent && ...`). -/
def toAgentTruthy : Option String → Bool
  | none => false
  | some t => t != ""

/-- `BaseChannel._messageRouter`: (1) drop malformed data with a console
warning — in the embedding the structural `typeof` checks hold by typing and
the residual check is the truthiness of `agentID`; (2) drop silently when
`toAgent` is truthy and differs from this channel's identity; (3) otherwise
invoke every listener registered for `message.type` in order. -/
def messageRouter (agentID : String) (reg : Registry) (env : ListenerEnv)
    (m : BaseMessage) (g : Gen) : List DEvent × Gen :=
  if m.agentID = "" then
    ([DEvent.warnedMalformed], g)
  else if toAgentTruthy m.toAgent && (m.toAgent != some agentID) then
    ([], g)
  else
    dispatchLoop env m ((assocGet reg m.type).getD []) g

/-- `BaseChannel._handleHandshake` composed with `greeting` and `sendMsg`:
on a `channel_hello` message it constructs a `GreetingMessage` addressed to
the hello sender and sends it; any other handshake type does nothing. -/
def handshakeRun (agent : MessageAgent) (m : BaseMessage) (g : Gen) :
    (List BaseMessage × Option JsError) × Gen :=
  if m.type = "channel_hello" then
    match GreetingMessage.mkM agent m.agentID g with
    | (.ok gm, g1) => (([gm.toBaseMessage], none), g1)
    | (.error e, g1) => (([], some e), g1)
  else
    (([], none), g)

/-- The callback id under which the constructor registers
`_handleHandshake`. -/
def helloCbId : CbId := 0

/-- The listener registry right after the `BaseChannel` constructor ran:
exactly the internal handshake handler, registered for `channel_hello`. -/
def initialRegistry : Registry := [("channel_hello", [helloCbId])]

/-- The behaviour environment matching `initialRegistry`. -/
def baseEnv (agent : MessageAgent) : ListenerEnv := fun cb m g =>
  if cb = helloCbId then handshakeRun agent m g else (([], none), g)

end BaseChannel

/-- The invocation events of a router run, in order. -/
def invokedEvents (evs : List DEvent) : List DEvent :=
  evs.filter (fun e => match e with | .invoked _ => true | _ => false)

/-- The messages a router run sent, in order. -/
def sentMessages (evs : List DEvent) : List BaseMessage :=
  evs.filterMap (fun e => match e with | .sent m => some m | _ => none)

/-! ## Async channel: request/response correlation

`src/public/src/msgChannels/channels/async.js`.  The pending-request table
maps a request `msgID` to the promise's `resolve`/`reject` pair (modelled by
a promise id) and the `setTimeout` handle.  Settling a promise is an
observable `AsyncEvent`; armed timers are tracked so that timer
cancellation (`clearTimeout`) is visible. -/

structure PendingRequest where
  promiseId : Nat
  timerId : Nat
deriving Repr, DecidableEq

structure AsyncState where
  pendingRequests : List (String × PendingRequest)
  activeTimers : List Nat
deriving Repr, DecidableEq

inductive AsyncEvent where
  | resolved (promiseId : Nat) (payload : JVal)
  | rejected (promiseId : Nat) (e : JsError)
deriving Repr, DecidableEq

/-- `RequestTimeoutError` from `channels/async.js`: carries the request id
as an own `requestMsgID` property. -/
def requestTimeoutError (msgID : String) : JsError :=
  { name := "RequestTimeoutError",
    message := "Request timed out after 10000ms. ID: " ++ msgID,
    stack := none, requestMsgID := some msgID,
    remoteStack := .undefined, remoteData := .undefined }

/-- The `new Error('Channel closed. Request aborted.')` used by
`AsyncChannel.close`. -/
def channelClosedError : JsError := mkError "Error" "Channel closed. Request aborted."

/-- The local error object `_handleResponse` builds from a remote
`ErrorMessage` payload: message text from the remote payload, remote stack
and data attached as extra properties. -/
def remoteError (payload : JVal) : JsError :=
  { name := "Error",
    message := "Remote Error: " ++ (payload.getProp "message").stringify,
    stack := none, requestMsgID := none,
    remoteStack := payload.getProp "stack",
    remoteData := payload.getProp "data" }

namespace AsyncChannel

/-- The synchronous bookkeeping of `AsyncChannel.request` (after sending the
`RequestMessage`): arm the timer and store `resolve`/`reject`/`timeout`
under the request's `msgID`. -/
def registerPending (s : AsyncState) (msgID : String) (promiseId timerId : Nat) :
    AsyncState :=
  { pendingRequests := assocSet s.pendingRequests msgID ⟨promiseId, timerId⟩,
    activeTimers := s.activeTimers ++ [timerId] }

/-- The `setTimeout` callback armed by `request`: when the timer (still
armed) fires it deletes the pending-table entry for the captured `msgID` and
rejects the captured promise with a `RequestTimeoutError`; the one-shot
timer is consumed. -/
def timeoutCallback (s : AsyncState) (msgID : String) (promiseId timerId : Nat) :
    AsyncState × List AsyncEvent :=
  ({ pendingRequests := s.pendingRequests.filter (fun p => p.1 != msgID),
     activeTimers := s.activeTimers.filter (fun t => t != timerId) },
   [AsyncEvent.rejected promiseId (requestTimeoutError msgID)])

/-- Can a timer still fire? Only while it is armed (neither fired, nor
cleared by `_handleResponse`/`close`). -/
def canFire (s : AsyncState) (timerId : Nat) : Prop := timerId ∈ s.activeTimers

instance (s : AsyncState) (timerId : Nat) : Decidable (canFire s timerId) :=
  inferInstanceAs (Decidable (timerId ∈ s.activeTimers))

/-- `AsyncChannel._handleResponse`, the single listener registered for both
`response` and `system_error` messages: reads `metadata?.requestMsgID`;
a falsy id or an id with no pending entry is ignored (it returns without
settling anything and without throwing); otherwise it clears the timer,
removes the entry, and resolves with the payload or rejects with the remote
error.  A JS `Map.get` with a non-string key never matches the string keys
stored by `request`. -/
def handleResponse (s : AsyncState) (m : BaseMessage) : AsyncState × List AsyncEvent :=
  let rid := m.metadata.getProp "requestMsgID"
  if !rid.truthy then
    (s, [])
  else
    match rid with
    | .str k =>
      match assocGet s.pendingRequests k with
      | none => (s, [])
      | some pr =>
        let s1 : AsyncState :=
          { pendingRequests := s.pendingRequests.filter (fun p => p.1 != k),
            activeTimers := s.activeTimers.filter (fun t => t != pr.timerId) }
        if m.type = "system_error" then
          (s1, [AsyncEvent.rejected pr.promiseId (remoteError m.payload)])
        else
          (s1, [AsyncEvent.resolved pr.promiseId m.payload])
    | _ => (s, [])

/-- The `this._pendingRequests.forEach(...)` loop of `AsyncChannel.close`:
for each pending entry, `clearTimeout(req.timeout)` then
`req.reject(new Error('Channel closed. Request aborted.'))`. -/
def closeLoop : AsyncState → List (String × PendingRequest) → AsyncState × List AsyncEvent
  | s, [] => (s, [])
  | s, p :: rest =>
    let s1 : AsyncState :=
      { s with activeTimers := s.activeTimers.filter (fun t => t != p.2.timerId) }
    let tail := closeLoop s1 rest
    (tail.1, AsyncEvent.rejected p.2.promiseId channelClosedError :: tail.2)

/-- `AsyncChannel.close`: reject every still-pending request with the
channel-closed error, clear each of their timers, then clear the table
(`super.close()` — goodbye message, transport release, listener clearing —
does not touch the pending table). -/
def close (s : AsyncState) : AsyncState × List AsyncEvent :=
  let r := closeLoop s s.pendingRequests
  ({ r.1 with pendingRequests := [] }, r.2)

/-- The `catch (error)` block of the listener that `AsyncChannel.onRequest`
registers: build an `ErrorMessage` tagged with the original request id in
its `data`, then execute `errorMsg.metadata.requestMsgID = message.msgID`
and send the result.  A throw inside this block (or from the `ErrorMessage`
constructor) escapes the `catch` and rejects the async listener without
sending anything. -/
def onRequestCatch (agent : MessageAgent) (m : BaseMessage) (e : JsError)
    (g : Gen) : (List BaseMessage × Option JsError) × Gen :=
  match ErrorMessage.mkM agent (.errVal e)
      (JVal.obj (.cons "originalRequestID" (.str m.msgID) .nil))
      (some m.agentID) g with
  | (.error e2, g1) => (([], some e2), g1)
  | (.ok errMsg, g1) =>
    match errMsg.toBaseMessage.metadata.setProp "requestMsgID" (.str m.msgID) with
    | .error te => (([], some te), g1)
    | .ok md => (([{ errMsg.toBaseMessage with metadata := md }], none), g1)

/-- The listener that `AsyncChannel.onRequest(requestType, callback)`
registers for the generic `request` type: filter on
`metadata?.requestType === requestType`; on a match run the callback and
send back a `ResponseMessage` (direct message echoing the request metadata),
or on a callback throw/rejection run the catch block above. -/
def onRequestRun (agent : MessageAgent) (requestType : String)
    (cb : JVal → BaseMessage → Except JsError JVal)
    (m : BaseMessage) (g : Gen) : (List BaseMessage × Option JsError) × Gen :=
  if m.metadata.getProp "requestType" != JVal.str requestType then
    (([], none), g)
  else
    match cb m.payload m with
    | .ok resultPayload =>
      match ResponseMessage.mkM agent m.msgID resultPayload m.metadata (some m.agentID) g with
      | (.ok resp, g1) => (([resp.toBaseMessage], none), g1)
      | (.error e, g1) => onRequestCatch agent m e g1
    | .error e => onRequestCatch agent m e g

end AsyncChannel

/-! ## Concrete fixtures used by witnesses and counterexamples -/

/-- A concrete main-thread agent, as produced by `new MessageAgent('UI')`. -/
def agentA : MessageAgent := ⟨"main", "main:UI"⟩

/-- A concrete incoming `RequestMessage` envelope for request type `echo`. -/
def reqMsgEx : BaseMessage :=
  { msgID := "-PushID9", timestamp := pushIDEpoch, type := "request",
    payload := JVal.null,
    metadata := JVal.obj (.cons "requestType" (.str "echo") .nil),
    agentID := "main:req", toAgent := none }

/-- A handler that always rejects, `p => \x7b throw new Error('boom') \x7d`. -/
def cbBoom : JVal → BaseMessage → Except JsError JVal :=
  fun _ _ => Except.error (mkError "Error" "boom")

/-- A registry with one listener (id 7) for message type `x`. -/
def regX : Registry := [("x", [7])]

/-- Listener behaviours that send nothing and never throw. -/
def envNoop : ListenerEnv := fun _ _ g => (([], none), g)

/-- A well-formed incoming message whose `toAgent` is set to the empty
string (a string, hence set, and different from any real agent id). -/
def msgEmptyToAgent : BaseMessage :=
  { msgID := "-PushID0", timestamp := pushIDEpoch, type := "x",
    payload := JVal.null, metadata := JVal.obj .nil,
    agentID := "main:a", toAgent := some "" }

/-- A well-formed incoming message addressed directly to another agent. -/
def msgDirectOther : BaseMessage :=
  { msgID := "-PushID1", timestamp := pushIDEpoch, type := "x",
    payload := JVal.null, metadata := JVal.obj .nil,
    agentID := "main:a", toAgent := some "main:other" }

/-- A registry with two listeners (ids 5 then 6) for message type `x`. -/
def reg8 : Registry := [("x", [5, 6])]

/-- Behaviours where listener 5 throws and listener 6 returns normally. -/
def env8 : ListenerEnv := fun cb _ g =>
  if cb = 5 then (([], some (mkError "Error" "boom")), g) else (([], none), g)

/-- A broadcast message of type `x` from another agent. -/
def msg8 : BaseMessage :=
  { msgID := "-PushID2", timestamp := pushIDEpoch, type := "x",
    payload := JVal.null, metadata := JVal.obj .nil,
    agentID := "main:a", toAgent := none }

/-- A concrete `HelloMessage` envelope as received from a worker agent. -/
def mHello : BaseMessage :=
  { msgID := "-PushIDh", timestamp := pushIDEpoch, type := "channel_hello",
    payload := JVal.obj (.cons "agentID" (.str "worker:w1")
      (.cons "scope" (.str "worker") .nil)),
    metadata := JVal.null, agentID := "worker:w1", toAgent := none }

/-- An async-channel state with two outstanding requests. -/
def sTwo : AsyncState :=
  ⟨[("-PushID0", ⟨1, 11⟩), ("-PushID1", ⟨2, 12⟩)], [11, 12]⟩

/-- An async-channel state with one outstanding request. -/
def sOne : AsyncState := ⟨[("-PushID5", ⟨3, 13⟩)], [13]⟩

/-- A late `ResponseMessage` envelope for the request tracked in `sOne`. -/
def lateResponse : BaseMessage :=
  { msgID := "-PushID7", timestamp := pushIDEpoch, type := "response",
    payload := JVal.str "late",
    metadata := JVal.obj (.cons "requestMsgID" (.str "-PushID5") .nil),
    agentID := "main:b", toAgent := none }

/-- A registry where callback 3 is registered twice under `x` and once
under `y`. -/
def regDup : Registry := [("x", [3, 4, 3]), ("y", [3])]

/-- `regDup` after `off('x', 3)`. -/
def rDup : Registry := [("x", [4]), ("y", [3])]

/-- Closed form of the prefix text rendered by `getLogPfxM` at generator
state `g` (proof-layer abbreviation of the computed value). -/
def logPfx (agent : MessageAgent) (level : String) (g : Gen) : String :=
  "[" ++ ("-PushID" ++ toString g) ++ "] [" ++ isoString (pushIDEpoch + g) ++
    "] [" ++ agent.agentID.toUpper ++ "] [" ++ padStart5 level.toUpper ++ "] "

/-! ## Helper lemmas -/

theorem assocGet_filter_self {α : Type} (l : List (String × α)) (k : String) :
    assocGet (l.filter (fun p => p.1 != k)) k = none := by
  induction l with
  | nil => rfl
  | cons p rest ih =>
    by_cases h : p.1 = k
    · simpa [List.filter_cons, h] using ih
    · simpa [List.filter_cons, h, assocGet] using ih

theorem assocGet_assocSet_self {α : Type} (l : List (String × α)) (k : String) (v : α) :
    assocGet (assocSet l k v) k = some v := by
  induction l with
  | nil => simp [assocSet, assocGet]
  | cons p rest ih =>
    by_cases h : p.1 = k
    · simp [assocSet, assocGet, h]
    · simpa [assocSet, assocGet, h] using ih

theorem assocGet_assocSet_ne {α : Type} (l : List (String × α)) (k k2 : String) (v : α)
    (h : k2 ≠ k) : assocGet (assocSet l k v) k2 = assocGet l k2 := by
  induction l with
  | nil => simp [assocSet, assocGet, Ne.symm h]
  | cons p rest ih =>
    obtain ⟨k1, v1⟩ := p
    by_cases h1 : k1 = k
    · subst h1
      simp [assocSet, assocGet, Ne.symm h]
    · by_cases h2 : k1 = k2
      · simp [assocSet, assocGet, h1, h2, h]
      · simp [assocSet, assocGet, h1, h2, ih]

theorem BaseMessage.mkM_snd_base (agent : MessageAgent) (type : String) (payload : JVal)
    (metadata : JVal) (toAgent : Option String) (g : Gen) (h : type ≠ "") :
    (BaseMessage.mkM agent type payload metadata toAgent g).2 = g + 1 := by
  unfold BaseMessage.mkM
  rw [if_neg h]
  cases getAgentID agent <;> simp [pushIDNewObj]

theorem BaseMessage.mkM_ok (agent : MessageAgent) (type : String) (payload : JVal)
    (metadata : JVal) (toAgent : Option String) (g : Gen)
    (htype : type ≠ "") (hagent : agent.agentID ≠ "") :
    BaseMessage.mkM agent type payload metadata toAgent g =
      (Except.ok { msgID := "-PushID" ++ toString g, timestamp := pushIDEpoch + g,
                   type := type, payload := payload,
                   metadata := if metadata = JVal.undefined then JVal.obj .nil else metadata,
                   agentID := agent.agentID, toAgent := toAgent }, g + 1) := by
  unfold BaseMessage.mkM getAgentID
  rw [if_neg htype, if_neg hagent]
  simp [pushIDNewObj]

theorem BaseMessage.mkM_ok' (agent : MessageAgent) (type : String) (payload : JVal)
    (metadata : JVal) (toAgent : Option String) (g : Gen)
    (htype : type ≠ "") (hagent : agent.agentID ≠ "") (hmd : metadata ≠ JVal.undefined) :
    BaseMessage.mkM agent type payload metadata toAgent g =
      (Except.ok { msgID := "-PushID" ++ toString g, timestamp := pushIDEpoch + g,
                   type := type, payload := payload, metadata := metadata,
                   agentID := agent.agentID, toAgent := toAgent }, g + 1) := by
  rw [BaseMessage.mkM_ok agent type payload metadata toAgent g htype hagent, if_neg hmd]

theorem getLogPfxM_ok (agent : MessageAgent) (msgType level : String) (g : Gen)
    (htype : msgType ≠ "") (hagent : agent.agentID ≠ "") :
    getLogPfxM agent msgType level g = (Except.ok (logPfx agent level g), g + 1) := by
  unfold getLogPfxM
  rw [BaseMessage.mkM_ok agent msgType JVal.null JVal.undefined none g htype hagent]
  rfl

theorem closeLoop_snd (l : List (String × PendingRequest)) (s : AsyncState) :
    (AsyncChannel.closeLoop s l).2 =
      l.map (fun p => AsyncEvent.rejected p.2.promiseId channelClosedError) := by
  induction l generalizing s with
  | nil => rfl
  | cons p rest ih => simp [AsyncChannel.closeLoop, ih]

theorem mem_closeLoop_timers (l : List (String × PendingRequest)) (s : AsyncState) (t : Nat) :
    t ∈ (AsyncChannel.closeLoop s l).1.activeTimers ↔
      t ∈ s.activeTimers ∧ ∀ p ∈ l, t ≠ p.2.timerId := by
  induction l generalizing s with
  | nil => simp [AsyncChannel.closeLoop]
  | cons p rest ih =>
    simp only [AsyncChannel.closeLoop]
    rw [ih]
    simp [List.mem_filter, bne_iff_ne]
    tauto

theorem invokedEvents_append (a b : List DEvent) :
    invokedEvents (a ++ b) = invokedEvents a ++ invokedEvents b := by
  simp [invokedEvents, List.filter_append]

theorem invokedEvents_map_sent (ms : List BaseMessage) :
    invokedEvents (ms.map DEvent.sent) = [] := by
  induction ms with
  | nil => rfl
  | cons m rest _ih => simp [invokedEvents, List.filter_cons]

theorem invokedEvents_cons_invoked (cb : CbId) (evs : List DEvent) :
    invokedEvents (DEvent.invoked cb :: evs) = DEvent.invoked cb :: invokedEvents evs := by
  simp [invokedEvents, List.filter_cons]

theorem invokedEvents_dispatchLoop (env : ListenerEnv) (m : BaseMessage)
    (ls : List CbId) (g : Gen) :
    invokedEvents (BaseChannel.dispatchLoop env m ls g).1 = ls.map DEvent.invoked := by
  induction ls generalizing g with
  | nil => rfl
  | cons cb rest ih =>
    rcases h : env cb m g with ⟨⟨sends, err⟩, g1⟩
    simp only [BaseChannel.dispatchLoop, h]
    rw [invokedEvents_cons_invoked, invokedEvents_append, invokedEvents_append,
      invokedEvents_map_sent, ih]
    cases err <;> simp [invokedEvents, List.filter_cons]

theorem JFields.get_insert_ne : ∀ (fs : JFields) (k key : String) (v : JVal),
    key ≠ k → (fs.insert k v).get? key = fs.get? key
  | .nil, k, key, v, h => by simp [JFields.insert, JFields.get?, h, Ne.symm h]
  | .cons k1 v1 r, k, key, v, h => by
    by_cases h1 : k1 = k
    · simp [JFields.insert, JFields.get?, h1, Ne.symm h]
    · by_cases h2 : k1 = key
      · simp [JFields.insert, JFields.get?, h1, h2, h]
      · simp [JFields.insert, JFields.get?, h1, h2,
          JFields.get_insert_ne r k key v h]

theorem spreadFields_get_of_not_hasKey : ∀ (src target : JFields) (key : String),
    src.hasKey key = false → (spreadFields target src).get? key = target.get? key
  | .nil, _, _, _ => rfl
  | .cons k v r, target, key, h => by
    simp only [JFields.hasKey, Bool.or_eq_false_iff, beq_eq_false_iff_ne] at h
    simp only [spreadFields]
    rw [spreadFields_get_of_not_hasKey r (target.insert k v) key h.2,
      JFields.get_insert_ne target k key v (Ne.symm h.1)]

theorem ErrorMessage.mkM_ok_metadata (agent : MessageAgent) (error : ErrArg)
    (data : JVal) (toAgent : Option String) (g : Gen)
    (hagent : agent.agentID ≠ "") :
    ∃ em : ErrorMessage,
      ErrorMessage.mkM agent error data toAgent g = (Except.ok em, g + 2) ∧
      em.toBaseMessage.metadata = JVal.null := by
  have h1 := getLogPfxM_ok agent "system_error" "ERROR" g (by decide) hagent
  simp only [ErrorMessage.mkM, h1]
  rw [BaseMessage.mkM_ok agent "system_error" _ JVal.null toAgent (g + 1) (by decide) hagent]
  exact ⟨_, rfl, rfl⟩

theorem StatusMessage.mkM_snd_status (agent : MessageAgent) (key : String) (value : JVal)
    (toAgent : Option String) (g : Gen) (hkey : key ≠ "") :
    (StatusMessage.mkM agent key value toAgent g).2 = g + 1 := by
  rcases hb : BaseMessage.mkM agent "system_status"
      (JVal.obj (.cons "key" (.str key) (.cons "value" value .nil)))
      JVal.null toAgent g with ⟨res, g1⟩
  have h2 := BaseMessage.mkM_snd_base agent "system_status"
    (JVal.obj (.cons "key" (.str key) (.cons "value" value .nil)))
    JVal.null toAgent g (by decide)
  rw [hb] at h2
  simp only [StatusMessage.mkM, if_neg hkey, hb]
  cases res <;> simpa using h2

theorem EventMessage.mkM_snd_event (agent : MessageAgent) (name : String) (data metadata : JVal)
    (toAgent : Option String) (g : Gen) (hname : name ≠ "") :
    (EventMessage.mkM agent name data metadata toAgent g).2 = g + 1 := by
  rcases hb : BaseMessage.mkM agent "app_event"
      (JVal.obj (.cons "name" (.str name) (.cons "data" data .nil)))
      metadata toAgent g with ⟨res, g1⟩
  have h2 := BaseMessage.mkM_snd_base agent "app_event"
    (JVal.obj (.cons "name" (.str name) (.cons "data" data .nil)))
    metadata toAgent g (by decide)
  rw [hb] at h2
  simp only [EventMessage.mkM, if_neg hname, hb]
  cases res <;> simpa using h2

theorem RequestMessage.mkM_snd_request (agent : MessageAgent) (originalType : String) (payload : JVal)
    (toAgent : Option String) (g : Gen) (h : originalType ≠ "") :
    (RequestMessage.mkM agent originalType payload toAgent g).2 = g + 1 := by
  rcases hb : BaseMessage.mkM agent "request" payload
      (JVal.obj (.cons "requestType" (.str originalType) .nil)) toAgent g with ⟨res, g1⟩
  have h2 := BaseMessage.mkM_snd_base agent "request" payload
    (JVal.obj (.cons "requestType" (.str originalType) .nil)) toAgent g (by decide)
  rw [hb] at h2
  simp only [RequestMessage.mkM, if_neg h, hb]
  cases res <;> simpa using h2

theorem ResponseMessage.mkM_snd_response (agent : MessageAgent) (requestMsgID : String)
    (payload requestMetadata : JVal) (toAgent : Option String) (g : Gen)
    (h : requestMsgID ≠ "") :
    (ResponseMessage.mkM agent requestMsgID payload requestMetadata toAgent g).2 = g + 1 := by
  rcases hb : BaseMessage.mkM agent "response" payload
      (JVal.obj (JVal.spreadInto (JFields.insert .nil "requestMsgID" (.str requestMsgID)) requestMetadata))
      toAgent g with ⟨res, g1⟩
  have h2 := BaseMessage.mkM_snd_base agent "response" payload
    (JVal.obj (JVal.spreadInto (JFields.insert .nil "requestMsgID" (.str requestMsgID)) requestMetadata))
    toAgent g (by decide)
  rw [hb] at h2
  simp only [ResponseMessage.mkM, if_neg h, hb]
  cases res <;> simpa using h2

theorem HandshakeMessage.mkM_snd_handshake (agent : MessageAgent) (type : String) (metadata : JVal)
    (toAgent : Option String) (g : Gen) (htype : type ≠ "") :
    (HandshakeMessage.mkM agent type metadata toAgent g).2 = g + 1 := by
  rcases hb : BaseMessage.mkM agent type
      (JVal.obj (.cons "agentID" (.str agent.agentID) (.cons "scope" (.str agent.agentScope) .nil)))
      metadata toAgent g with ⟨res, g1⟩
  have h2 := BaseMessage.mkM_snd_base agent type
    (JVal.obj (.cons "agentID" (.str agent.agentID) (.cons "scope" (.str agent.agentScope) .nil)))
    metadata toAgent g htype
  rw [hb] at h2
  simp only [HandshakeMessage.mkM, hb]
  cases res <;> simpa using h2

theorem LogMessage.mkM_snd_log (agent : MessageAgent) (level message : String) (data : JVal)
    (toAgent : Option String) (g : Gen)
    (hlevel : level = "info" ∨ level = "warn" ∨ level = "debug")
    (hagent : agent.agentID ≠ "") :
    (LogMessage.mkM agent level message data toAgent g).2 = g + 2 := by
  have h1 := getLogPfxM_ok agent "system_log" level g (by decide) hagent
  rcases hb : BaseMessage.mkM agent "system_log"
      (JVal.obj (.cons "level" (.str level)
        (.cons "message" (.str (logPfx agent level g ++ message))
        (.cons "data" data
        (.cons "timestamp" (.num (dateNow (g + 1))) .nil)))))
      JVal.null toAgent (g + 1) with ⟨res, g2⟩
  have h2 := BaseMessage.mkM_snd_base agent "system_log"
    (JVal.obj (.cons "level" (.str level)
      (.cons "message" (.str (logPfx agent level g ++ message))
      (.cons "data" data
      (.cons "timestamp" (.num (dateNow (g + 1))) .nil)))))
    JVal.null toAgent (g + 1) (by decide)
  rw [hb] at h2
  simp only [LogMessage.mkM, if_pos hlevel, h1, hb]
  cases res <;> simpa using h2

theorem ErrorMessage.mkM_snd_error (agent : MessageAgent) (error : ErrArg) (data : JVal)
    (toAgent : Option String) (g : Gen) (hagent : agent.agentID ≠ "") :
    (ErrorMessage.mkM agent error data toAgent g).2 = g + 2 := by
  obtain ⟨em, hem, -⟩ := ErrorMessage.mkM_ok_metadata agent error data toAgent g hagent
  rw [hem]

/-! ## Claim theorems -/

/-- C4, counterexample: the claim says every message construction advances
the ID generator by exactly one unit, "in particular" `LogMessage`.  On the
code, `new LogMessage(agentA, 'info', 'hi', null)` at generator state 0
leaves the generator at 2, not 1: `LogMessage._getLogPrefix` constructs an
internal dummy `BaseMessage` (one unit) before the envelope itself consumes
its own unit. -/
theorem C4_counterexample_log_consumes_two :
    (LogMessage.mkM agentA "info" "hi" JVal.null none 0).2 = 2 ∧ (2 : Gen) ≠ 1 :=
  ⟨rfl, by decide⟩

/-- C4, amended: every message constructor consumes exactly one unit of the
ID generator — except `LogMessage` and `ErrorMessage`, which consume exactly
two (one extra for the dummy `BaseMessage` their `_getLogPrefix` builds) —
and, being modelled as pure functions of the argument list and the generator
state, has no other side effect. -/
theorem C4_generator_units (agent : MessageAgent) (g : Gen)
    (type key name originalType requestMsgID toAgentID level message : String)
    (payload data metadata requestMetadata : JVal)
    (toAgent : Option String) (e : ErrArg)
    (hagent : agent.agentID ≠ "") :
    (type ≠ "" → (BaseMessage.mkM agent type payload metadata toAgent g).2 = g + 1) ∧
    (key ≠ "" → (StatusMessage.mkM agent key payload toAgent g).2 = g + 1) ∧
    (name ≠ "" → (EventMessage.mkM agent name data metadata toAgent g).2 = g + 1) ∧
    (originalType ≠ "" → (RequestMessage.mkM agent originalType payload toAgent g).2 = g + 1) ∧
    (requestMsgID ≠ "" → (ResponseMessage.mkM agent requestMsgID payload requestMetadata toAgent g).2 = g + 1) ∧
    (type ≠ "" → (HandshakeMessage.mkM agent type metadata toAgent g).2 = g + 1) ∧
    ((HelloMessage.mkM agent g).2 = g + 1) ∧
    (toAgentID ≠ "" → (GreetingMessage.mkM agent toAgentID g).2 = g + 1) ∧
    ((GoodbyeMessage.mkM agent g).2 = g + 1) ∧
    ((level = "info" ∨ level = "warn" ∨ level = "debug") →
      (LogMessage.mkM agent level message data toAgent g).2 = g + 2) ∧
    ((ErrorMessage.mkM agent e data toAgent g).2 = g + 2) := by
  refine ⟨?_, ?_, ?_, ?_, ?_, ?_, ?_, ?_, ?_, ?_, ?_⟩
  · intro h; exact BaseMessage.mkM_snd_base agent type payload metadata toAgent g h
  · intro h; exact StatusMessage.mkM_snd_status agent key payload toAgent g h
  · intro h; exact EventMessage.mkM_snd_event agent name data metadata toAgent g h
  · intro h; exact RequestMessage.mkM_snd_request agent originalType payload toAgent g h
  · intro h; exact ResponseMessage.mkM_snd_response agent requestMsgID payload requestMetadata toAgent g h
  · intro h; exact HandshakeMessage.mkM_snd_handshake agent type metadata toAgent g h
  · exact HandshakeMessage.mkM_snd_handshake agent "channel_hello" JVal.null none g (by decide)
  · intro h
    unfold GreetingMessage.mkM
    rw [if_neg h]
    exact HandshakeMessage.mkM_snd_handshake agent "channel_greeting" JVal.null (some toAgentID) g (by decide)
  · exact HandshakeMessage.mkM_snd_handshake agent "channel_goodbye" JVal.null none g (by decide)
  · intro h; exact LogMessage.mkM_snd_log agent level message data toAgent g h hagent
  · exact ErrorMessage.mkM_snd_error agent e data toAgent g hagent

/-- C4, witness: the amended statement at concrete arguments — a
`StatusMessage` consumes one unit, a `LogMessage` two. -/
theorem C4_generator_units_witness :
    (StatusMessage.mkM agentA "cpu" JVal.null none 0).2 = 0 + 1 ∧
    (LogMessage.mkM agentA "info" "hi" JVal.null none 0).2 = 0 + 2 := by
  have h := C4_generator_units agentA 0 "t" "cpu" "ev" "ot" "rid" "ta" "info" "hi"
    JVal.null JVal.null JVal.null JVal.null none (.other JVal.null) (by decide)
  exact ⟨h.2.1 (by decide), h.2.2.2.2.2.2.2.2.2.1 (by decide)⟩

/-- C5: the claim says every successfully constructed message has an object
(key/value map) `metadata`, never null.  On the code, `ErrorMessage` (and
`LogMessage`, `StatusMessage` and every handshake message) passes `null`
explicitly to the base constructor, whose `metadata = \x7b\x7d` default only
applies to `undefined`; the constructed message carries `metadata = null`,
contradicting the documented guarantee in `messages/base.js` ("Optional
metadata, guaranteed to be an object"). -/
theorem C5_metadata_is_null_not_object :
    Except.map (fun em : ErrorMessage => em.toBaseMessage.metadata)
      (ErrorMessage.mkM agentA (.other (JVal.str "boom")) JVal.null none 0).1
      = Except.ok JVal.null ∧
    Except.map (fun hm : HandshakeMessage => hm.toBaseMessage.metadata)
      (HelloMessage.mkM agentA 0).1 = Except.ok JVal.null ∧
    JVal.null ≠ JVal.obj .nil :=
  ⟨rfl, rfl, by decide⟩

/-- C6, counterexample: the claim says the `ResponseMessage` top-level
`requestMsgID` field equals `metadata.requestMsgID` for every original
request metadata, including one that itself contains a `requestMsgID` key.
On the code, the spread `\x7b requestMsgID, ...requestMetadata \x7d` lets the
original metadata override: with original metadata `\x7b requestMsgID: "A" \x7d`
and given id `"B"`, `metadata.requestMsgID` is `"A"` while the field is
`"B"`. -/
theorem C6_counterexample_spread_override :
    Except.map (fun rm : ResponseMessage =>
        (rm.toBaseMessage.metadata.getProp "requestMsgID", rm.requestMsgID))
      (ResponseMessage.mkM agentA "B" JVal.null
        (JVal.obj (.cons "requestMsgID" (.str "A") .nil)) none 0).1
      = Except.ok (JVal.str "A", "B") ∧ JVal.str "A" ≠ JVal.str "B" :=
  ⟨rfl, by decide⟩

/-- C6, amended: the `ResponseMessage` metadata is the object literal
`\x7b requestMsgID, ...originalRequestMetadata \x7d` (original entries override on
key collision); the top-level `requestMsgID` field always equals the given
request id, and it equals `metadata.requestMsgID` whenever the original
request metadata is an object without a `requestMsgID` key of its own (or is
null/undefined) — in particular for every metadata a `RequestMessage`
actually produces. -/
theorem C6_response_metadata_merge (agent : MessageAgent) (rid : String)
    (payload requestMetadata : JVal) (toAgent : Option String) (g : Gen)
    (hagent : agent.agentID ≠ "") (hrid : rid ≠ "") :
    Except.map (fun rm : ResponseMessage => rm.toBaseMessage.metadata)
      (ResponseMessage.mkM agent rid payload requestMetadata toAgent g).1
      = Except.ok (JVal.obj (JVal.spreadInto
          (JFields.insert .nil "requestMsgID" (.str rid)) requestMetadata)) ∧
    Except.map (fun rm : ResponseMessage => rm.requestMsgID)
      (ResponseMessage.mkM agent rid payload requestMetadata toAgent g).1
      = Except.ok rid ∧
    (∀ fs : JFields, requestMetadata = JVal.obj fs → fs.hasKey "requestMsgID" = false →
      Except.map (fun rm : ResponseMessage => rm.toBaseMessage.metadata.getProp "requestMsgID")
        (ResponseMessage.mkM agent rid payload requestMetadata toAgent g).1
        = Except.ok (JVal.str rid)) ∧
    ((requestMetadata = JVal.null ∨ requestMetadata = JVal.undefined) →
      Except.map (fun rm : ResponseMessage => rm.toBaseMessage.metadata.getProp "requestMsgID")
        (ResponseMessage.mkM agent rid payload requestMetadata toAgent g).1
        = Except.ok (JVal.str rid)) := by
  have hmk := BaseMessage.mkM_ok' agent "response" payload
    (JVal.obj (JVal.spreadInto (JFields.insert .nil "requestMsgID" (.str rid)) requestMetadata))
    toAgent g (by decide) hagent (by simp)
  refine ⟨?_, ?_, ?_, ?_⟩
  · simp only [ResponseMessage.mkM, if_neg hrid, hmk]
    rfl
  · simp only [ResponseMessage.mkM, if_neg hrid, hmk]
    rfl
  · intro fs hfs hkey
    subst hfs
    simp only [ResponseMessage.mkM, if_neg hrid, hmk]
    simp only [Except.map, JVal.spreadInto, JVal.getProp]
    rw [spreadFields_get_of_not_hasKey fs
      (JFields.insert .nil "requestMsgID" (.str rid)) "requestMsgID" hkey]
    simp [JFields.insert, JFields.get?]
  · intro hcase
    rcases hcase with h | h <;> subst h <;>
      simp only [ResponseMessage.mkM, if_neg hrid, hmk] <;> rfl

/-- C6, witness: the amended statement at the metadata an actual
`RequestMessage` produces (`requestType` only): the mirror holds. -/
theorem C6_response_metadata_merge_witness :
    Except.map (fun rm : ResponseMessage => rm.toBaseMessage.metadata.getProp "requestMsgID")
      (ResponseMessage.mkM agentA "B" JVal.null
        (JVal.obj (.cons "requestType" (.str "echo") .nil)) none 0).1
      = Except.ok (JVal.str "B") :=
  (C6_response_metadata_merge agentA "B" JVal.null
      (JVal.obj (.cons "requestType" (.str "echo") .nil)) none 0
      (by decide) (by decide)).2.2.1
    (.cons "requestType" (.str "echo") .nil) rfl (by decide)

/-- C2: for every async channel state, `close()` leaves the pending-request
table empty, rejects each pending request's promise with the channel-closed
error, and cancels each pending request's timer, so no timeout can fire
afterwards. -/
theorem C2_close_rejects_all_pending (s : AsyncState) :
    (AsyncChannel.close s).1.pendingRequests = [] ∧
    ∀ k pr, (k, pr) ∈ s.pendingRequests →
      AsyncEvent.rejected pr.promiseId channelClosedError ∈ (AsyncChannel.close s).2 ∧
      ¬ AsyncChannel.canFire (AsyncChannel.close s).1 pr.timerId := by
  constructor
  · rfl
  · intro k pr hmem
    constructor
    · show _ ∈ (AsyncChannel.closeLoop s s.pendingRequests).2
      rw [closeLoop_snd]
      exact List.mem_map_of_mem _ hmem
    · intro hfire
      have hf : pr.timerId ∈ (AsyncChannel.closeLoop s s.pendingRequests).1.activeTimers := hfire
      rw [mem_closeLoop_timers] at hf
      exact hf.2 (k, pr) hmem rfl

/-- C2, witness: closing a channel with two outstanding requests rejects
both with the channel-closed error and leaves both timers unable to fire. -/
theorem C2_close_rejects_all_pending_witness :
    (AsyncChannel.close sTwo).1.pendingRequests = [] ∧
    AsyncEvent.rejected 1 channelClosedError ∈ (AsyncChannel.close sTwo).2 ∧
    AsyncEvent.rejected 2 channelClosedError ∈ (AsyncChannel.close sTwo).2 ∧
    ¬ AsyncChannel.canFire (AsyncChannel.close sTwo).1 11 ∧
    ¬ AsyncChannel.canFire (AsyncChannel.close sTwo).1 12 := by
  have h := C2_close_rejects_all_pending sTwo
  have h1 := h.2 "-PushID0" ⟨1, 11⟩ (by decide)
  have h2 := h.2 "-PushID1" ⟨2, 12⟩ (by decide)
  exact ⟨h.1, h1.1, h2.1, h1.2, h2.2⟩

/-- C3: when a pending request's armed timer fires, the pending-table entry
for its `msgID` is removed and its promise is rejected with a
`RequestTimeoutError` carrying that `msgID`; any later `response` or
`system_error` message bearing that `requestMsgID` is then ignored by
`_handleResponse` — no state change, no settled promise, no thrown error
(the handler is total). -/
theorem C3_timeout_rejects_then_late_ignored (s : AsyncState) (msgID : String)
    (pr : PendingRequest)
    (hpend : assocGet s.pendingRequests msgID = some pr)
    (_hfire : AsyncChannel.canFire s pr.timerId) :
    assocGet (AsyncChannel.timeoutCallback s msgID pr.promiseId pr.timerId).1.pendingRequests msgID = none ∧
    (AsyncChannel.timeoutCallback s msgID pr.promiseId pr.timerId).2 =
      [AsyncEvent.rejected pr.promiseId (requestTimeoutError msgID)] ∧
    (requestTimeoutError msgID).requestMsgID = some msgID ∧
    ∀ m : BaseMessage, m.metadata.getProp "requestMsgID" = JVal.str msgID →
      AsyncChannel.handleResponse (AsyncChannel.timeoutCallback s msgID pr.promiseId pr.timerId).1 m =
        ((AsyncChannel.timeoutCallback s msgID pr.promiseId pr.timerId).1, []) := by
  refine ⟨assocGet_filter_self s.pendingRequests msgID, rfl, rfl, ?_⟩
  intro m hm
  unfold AsyncChannel.handleResponse
  rw [hm]
  by_cases h0 : msgID = ""
  · subst h0
    simp [JVal.truthy]
  · simp [JVal.truthy, h0, AsyncChannel.timeoutCallback, assocGet_filter_self]

/-- C3, witness: firing the timeout of the one pending request of `sOne`
rejects it with a `RequestTimeoutError` carrying its id, empties the table,
and the late `lateResponse` for the same id is then ignored. -/
theorem C3_timeout_rejects_then_late_ignored_witness :
    assocGet (AsyncChannel.timeoutCallback sOne "-PushID5" 3 13).1.pendingRequests "-PushID5" = none ∧
    (AsyncChannel.timeoutCallback sOne "-PushID5" 3 13).2 =
      [AsyncEvent.rejected 3 (requestTimeoutError "-PushID5")] ∧
    (requestTimeoutError "-PushID5").requestMsgID = some "-PushID5" ∧
    AsyncChannel.handleResponse (AsyncChannel.timeoutCallback sOne "-PushID5" 3 13).1 lateResponse =
      ((AsyncChannel.timeoutCallback sOne "-PushID5" 3 13).1, []) := by
  have h := C3_timeout_rejects_then_late_ignored sOne "-PushID5" ⟨3, 13⟩ (by decide) (by decide)
  exact ⟨h.1, h.2.1, h.2.2.1, h.2.2.2 lateResponse (by decide)⟩

/-- C10: after `off(type, callback)` succeeds, no occurrence of that
callback remains under that type (even if it was registered several times);
the other callbacks of that type survive in order (the list becomes exactly
the old list filtered); listener lists of other types are untouched; and
`off` on a type with no listener list leaves the registry unchanged. -/
theorem C10_off_removes_all_occurrences (reg : Registry) (type : String)
    (cb : CbId) (r : Registry)
    (hoff : BaseChannel.off reg type cb = Except.ok r) :
    (∀ c ∈ (assocGet r type).getD [], c ≠ cb) ∧
    assocGet r type = (assocGet reg type).map (fun ls => ls.filter (fun c => c != cb)) ∧
    (∀ t2, t2 ≠ type → assocGet r t2 = assocGet reg t2) ∧
    (assocGet reg type = none → r = reg) := by
  by_cases htype : type = ""
  · rw [htype] at hoff
    simp [BaseChannel.off, getTypeString] at hoff
  · simp only [BaseChannel.off, getTypeString, if_neg htype] at hoff
    rcases hget : assocGet reg type with _ | ls
    · rw [hget] at hoff
      simp only [Except.ok.injEq] at hoff
      subst hoff
      refine ⟨?_, ?_, ?_, ?_⟩ <;> simp [hget]
    · rw [hget] at hoff
      simp only [Except.ok.injEq] at hoff
      subst hoff
      refine ⟨?_, ?_, ?_, ?_⟩
      · intro c hc
        rw [assocGet_assocSet_self] at hc
        simp only [Option.getD_some] at hc
        have := List.of_mem_filter hc
        simpa [bne_iff_ne] using this
      · rw [assocGet_assocSet_self]
        rfl
      · intro t2 ht2
        exact assocGet_assocSet_ne reg type t2 _ ht2
      · intro hnone
        exact Option.noConfusion hnone

/-- C10, witness: with callback 3 registered twice under `x` and once under
`y`, a single `off('x', 3)` removes both occurrences under `x`, keeps
callback 4, and leaves the `y` list untouched. -/
theorem C10_off_removes_all_occurrences_witness :
    BaseChannel.off regDup "x" 3 = Except.ok rDup ∧
    assocGet rDup "y" = assocGet regDup "y" ∧
    (∀ c ∈ (assocGet rDup "x").getD [], c ≠ 3) := by
  refine ⟨rfl, ?_, ?_⟩
  · exact (C10_off_removes_all_occurrences regDup "x" 3 rDup rfl).2.2.1 "y" (by decide)
  · exact (C10_off_removes_all_occurrences regDup "x" 3 rDup rfl).1

/-- C7, counterexample: the claim says every well-formed message whose
`toAgent` is set and differs from the receiver's identity is dropped with
zero listener invocations.  The router's filter tests JS *truthiness*, so a
message with `toAgent = ""` — a set string different from the receiver id
`"main:main"` — is not filtered and its listener IS invoked. -/
theorem C7_counterexample_empty_toAgent :
    msgEmptyToAgent.toAgent = some "" ∧
    (some "" : Option String) ≠ some "main:main" ∧
    (BaseChannel.messageRouter "main:main" regX envNoop msgEmptyToAgent 0).1 =
      [DEvent.invoked 7] :=
  ⟨rfl, by decide, rfl⟩

/-- C7, amended: for every well-formed incoming message whose `toAgent` is
set to a NON-EMPTY string that differs from the receiving channel's own
`agentID`, the dispatch loop invokes zero listeners. -/
theorem C7_direct_message_filter (agentID : String) (reg : Registry)
    (env : ListenerEnv) (m : BaseMessage) (g : Gen) (t : String)
    (hto : m.toAgent = some t) (hne : t ≠ "") (hself : t ≠ agentID) :
    invokedEvents (BaseChannel.messageRouter agentID reg env m g).1 = [] := by
  unfold BaseChannel.messageRouter
  by_cases ha : m.agentID = ""
  · rw [if_pos ha]
    rfl
  · rw [if_neg ha]
    have hcond : (BaseChannel.toAgentTruthy m.toAgent && (m.toAgent != some agentID)) = true := by
      simp [BaseChannel.toAgentTruthy, hto, hne, hself]
    rw [if_pos hcond]
    rfl

/-- C7, witness: a direct message to `main:other` produces zero listener
invocations on the channel owned by `main:main`. -/
theorem C7_direct_message_filter_witness :
    invokedEvents (BaseChannel.messageRouter "main:main" regX envNoop msgDirectOther 0).1 = [] :=
  C7_direct_message_filter "main:main" regX envNoop msgDirectOther 0 "main:other"
    rfl (by decide) (by decide)

/-- C8: for every dispatched message that passes validation and the direct
message filter, and every listener-behaviour environment (including ones
where listeners throw), the router invokes exactly the listeners registered
for the message type, in registration order — a throwing listener never
prevents a later one from running, and the throw never propagates (the
router is a total function; a throw only becomes a logged-diagnostic
event). -/
theorem C8_listener_isolation (agentID : String) (reg : Registry)
    (env : ListenerEnv) (m : BaseMessage) (g : Gen)
    (hagent : m.agentID ≠ "")
    (hpass : BaseChannel.toAgentTruthy m.toAgent = false ∨ m.toAgent = some agentID) :
    invokedEvents (BaseChannel.messageRouter agentID reg env m g).1 =
      ((assocGet reg m.type).getD []).map DEvent.invoked := by
  unfold BaseChannel.messageRouter
  rw [if_neg hagent]
  have hcond : (BaseChannel.toAgentTruthy m.toAgent && (m.toAgent != some agentID)) = false := by
    rcases hpass with h | h <;> simp [h]
  simp only [hcond, Bool.false_eq_true, if_false]
  exact invokedEvents_dispatchLoop env m ((assocGet reg m.type).getD []) g

/-- C8, witness: with listener 5 (which throws) registered before listener 6
for type `x`, both are invoked, in order. -/
theorem C8_listener_isolation_witness :
    invokedEvents (BaseChannel.messageRouter "main:main" reg8 env8 msg8 0).1 =
      [DEvent.invoked 5, DEvent.invoked 6] := by
  have h := C8_listener_isolation "main:main" reg8 env8 msg8 0 (by decide) (Or.inl rfl)
  exact h.trans (by decide)

/-- C9: a freshly constructed channel (whose registry holds exactly the
internal handshake handler) that receives a `HelloMessage` from another
agent sends exactly one message in reply, and that reply is a
`GreetingMessage` addressed directly to the hello sender's `agentID`. -/
theorem C9_hello_replies_one_greeting (agent : MessageAgent) (m : BaseMessage)
    (g : Gen)
    (hagent : agent.agentID ≠ "") (hsender : m.agentID ≠ "")
    (htype : m.type = "channel_hello")
    (hpass : m.toAgent = none ∨ m.toAgent = some agent.agentID) :
    (sentMessages (BaseChannel.messageRouter agent.agentID BaseChannel.initialRegistry
        (BaseChannel.baseEnv agent) m g).1).length = 1 ∧
    ∀ msg ∈ sentMessages (BaseChannel.messageRouter agent.agentID BaseChannel.initialRegistry
        (BaseChannel.baseEnv agent) m g).1,
      msg.type = "channel_greeting" ∧ msg.toAgent = some m.agentID := by
  have hrun : BaseChannel.handshakeRun agent m g =
      (([{ msgID := "-PushID" ++ toString g, timestamp := pushIDEpoch + g,
           type := "channel_greeting",
           payload := JVal.obj (.cons "agentID" (.str agent.agentID)
             (.cons "scope" (.str agent.agentScope) .nil)),
           metadata := JVal.null, agentID := agent.agentID,
           toAgent := some m.agentID }], none), g + 1) := by
    unfold BaseChannel.handshakeRun
    rw [if_pos htype]
    unfold GreetingMessage.mkM
    rw [if_neg hsender]
    simp only [HandshakeMessage.mkM,
      BaseMessage.mkM_ok' agent "channel_greeting"
        (JVal.obj (.cons "agentID" (.str agent.agentID)
          (.cons "scope" (.str agent.agentScope) .nil)))
        JVal.null (some m.agentID) g (by decide) hagent (by decide)]
  have hcond : (BaseChannel.toAgentTruthy m.toAgent && (m.toAgent != some agent.agentID)) = false := by
    rcases hpass with h | h <;> simp [BaseChannel.toAgentTruthy, h]
  have hev : (BaseChannel.messageRouter agent.agentID BaseChannel.initialRegistry
      (BaseChannel.baseEnv agent) m g).1 =
      [DEvent.invoked BaseChannel.helloCbId,
       DEvent.sent
         ({ msgID := "-PushID" ++ toString g,
            timestamp := pushIDEpoch + g,
            type := "channel_greeting",
            payload := JVal.obj (.cons "agentID" (.str agent.agentID)
              (.cons "scope" (.str agent.agentScope) .nil)),
            metadata := JVal.null, agentID := agent.agentID,
            toAgent := some m.agentID } : BaseMessage)] := by
    unfold BaseChannel.messageRouter
    rw [if_neg hsender]
    simp only [hcond, Bool.false_eq_true, if_false, htype]
    simp [BaseChannel.initialRegistry, assocGet, BaseChannel.dispatchLoop,
      BaseChannel.baseEnv, BaseChannel.helloCbId, hrun]
  rw [hev]
  constructor
  · rfl
  · intro msg hmsg
    simp only [sentMessages, List.filterMap] at hmsg
    simp at hmsg
    subst hmsg
    exact ⟨rfl, rfl⟩

/-- C9, witness: on `agentA`'s fresh channel, the concrete hello `mHello`
from `worker:w1` produces exactly one sent message. -/
theorem C9_hello_replies_one_greeting_witness :
    (sentMessages (BaseChannel.messageRouter agentA.agentID BaseChannel.initialRegistry
        (BaseChannel.baseEnv agentA) mHello 0).1).length = 1 :=
  (C9_hello_replies_one_greeting agentA mHello 0 (by decide) (by decide) rfl
    (Or.inl rfl)).1

/-- C1: the claim says a throwing/rejecting `onRequest` handler causes an
`ErrorMessage` tagged with `metadata.requestMsgID` to be sent back.  On the
code this never happens: the constructed `ErrorMessage` carries
`metadata = null` (explicit `null` to the base constructor), so the
assignment `errorMsg.metadata.requestMsgID = message.msgID` in the catch
block throws a `TypeError`, the listener rejects, and NO message at all is
sent back — the requester can only time out.  This contradicts the code's
own comment ("Ensure the response link is present on the ErrorMessage
metadata"): a code bug. -/
theorem C1_handler_error_sends_nothing (agent : MessageAgent) (requestType : String)
    (cb : JVal → BaseMessage → Except JsError JVal) (m : BaseMessage) (g : Gen)
    (e : JsError)
    (hagent : agent.agentID ≠ "")
    (hmatch : m.metadata.getProp "requestType" = JVal.str requestType)
    (hcb : cb m.payload m = Except.error e) :
    AsyncChannel.onRequestRun agent requestType cb m g =
      (([], some (mkError "TypeError" "Cannot set properties of null")), g + 2) := by
  obtain ⟨em, hem, hmd⟩ := ErrorMessage.mkM_ok_metadata agent (.errVal e)
    (JVal.obj (.cons "originalRequestID" (.str m.msgID) .nil)) (some m.agentID) g hagent
  obtain ⟨⟨mid, ts, ty, pl, md, aid, ta⟩, en, emsg, est⟩ := em
  have hmd2 : md = JVal.null := hmd
  subst hmd2
  unfold AsyncChannel.onRequestRun
  rw [hmatch]
  simp only [bne_self_eq_false, Bool.false_eq_true, if_false, hcb]
  unfold AsyncChannel.onRequestCatch
  rw [hem]
  rfl

/-- C1, witness: the concrete request `reqMsgEx` handled by the throwing
handler `cbBoom` yields no sent message and the escaping `TypeError`. -/
theorem C1_handler_error_sends_nothing_witness :
    AsyncChannel.onRequestRun agentA "echo" cbBoom reqMsgEx 0 =
      (([], some (mkError "TypeError" "Cannot set properties of null")), 2) :=
  C1_handler_error_sends_nothing agentA "echo" cbBoom reqMsgEx 0
    (mkError "Error" "boom") (by decide) (by decide) rfl

end OpfsChannel
